import Mathlib

/-!
Shallow embedding of the tess-publisher data-acquisition pipeline
(src/tesspublisher) in Lean 4, used to check its natural-language
specification against the code.  Python functions become Lean
functions, raised exceptions become an explicit error type, and the
asyncio priority queue, the one-slot ring buffer, the TCP line framer
and the task-supervision structure are modelled denotationally.
All definitions are executable.
-/

namespace TessPublisher

/-- Python exceptions that the modelled code can raise. -/
inductive PyError
  | attributeError (name : String)
  | keyError (key : String)
  | valueError (msg : String)
  | typeError (msg : String)
  | serialException (msg : String)
  deriving DecidableEq

/-- constants.py lines 11-14: the MessagePriority enum defines exactly the
members REGISTER = 1 and MQTT_READINGS = 2. -/
inductive MessagePriority
  | REGISTER
  | MQTT_READINGS
  deriving DecidableEq

/-- The numeric value of each enum member, as declared in constants.py. -/
def MessagePriority.val : MessagePriority → Nat
  | .REGISTER => 1
  | .MQTT_READINGS => 2

/-- Python attribute lookup on the MessagePriority enum class: any name other
than the two defined members raises AttributeError. -/
def messagePriorityAttr (name : String) : Except PyError MessagePriority :=
  if name = "REGISTER" then .ok .REGISTER
  else if name = "MQTT_READINGS" then .ok .MQTT_READINGS
  else .error (.attributeError name)

/-- Python string comparison: lexicographic on the code points. -/
def charListLt : List Char → List Char → Bool
  | [], [] => false
  | [], _ :: _ => true
  | _ :: _, [] => false
  | a :: as, b :: bs =>
    if a < b then true else if b < a then false else charListLt as bs

/-- Strict order on queue entries: Python orders the (priority, payload)
tuples stored in the asyncio.PriorityQueue lexicographically, comparing
string payloads by code points. -/
def entryLt (a b : Nat × String) : Bool :=
  decide (a.1 < b.1) || (decide (a.1 = b.1) && charListLt a.2.toList b.2.toList)

/-- asyncio.PriorityQueue.put, denotationally: the queue holds a multiset of
entries, represented here as the list in enqueue order. -/
def pqPut (q : List (Nat × String)) (x : Nat × String) : List (Nat × String) :=
  q ++ [x]

/-- The least entry of a nonempty collection under the tuple order. -/
def pqMin (x : Nat × String) (xs : List (Nat × String)) : Nat × String :=
  xs.foldl (fun acc y => if entryLt y acc then y else acc) x

/-- asyncio.PriorityQueue.get = heapq.heappop: removes and returns the least
entry in the tuple order.  The entries are the bare (priority, payload)
pairs the producers put (photometer.py 154, 197; serial.py 28, 52); no
enqueue-order tie-break token exists anywhere in the code. -/
def pqGet (q : List (Nat × String)) :
    Option ((Nat × String) × List (Nat × String)) :=
  match q with
  | [] => none
  | x :: xs =>
    let m := pqMin x xs
    some (m, (x :: xs).erase m)

/-- photometer.py line 197: the sampler enqueues the pair
(MessagePriority.MQTT_READINGS, message). -/
def samplerEnqueue (q : List (Nat × String)) (message : String) :
    List (Nat × String) :=
  pqPut q (MessagePriority.MQTT_READINGS.val, message)

/-- photometer.py line 147: self.queue = collections.deque(maxlen=1).
deque.append adds at the right end and, when the deque already holds
maxlen items, silently discards the leftmost one. -/
def dequeAppend (maxlen : Nat) (q : List String) (x : String) : List String :=
  if q.length = maxlen then q.drop 1 ++ [x] else q ++ [x]

/-- The reader pushes into the one-slot ring buffer with deque.append
(photometer.py line 185). -/
def ringPush (q : List String) (x : String) : List String :=
  dequeAppend 1 q x

/-- The guarded pop performed by the sampler (photometer.py 192-199):
if len(self.queue) then self.queue.pop() removes the rightmost element,
otherwise the missing-data condition is reported and nothing is returned. -/
def ringPop (q : List String) : Option (String × List String) :=
  match q.reverse with
  | [] => none
  | x :: rest => some (x, rest.reverse)

/-- Attributes of the PhotometerInfo pydantic model (model.py 107-131): its
declared fields and methods plus the pydantic BaseModel serialisation
methods.  No to_dict method exists. -/
def photometerInfoAttrs : List String :=
  ["name", "mac_address", "model", "firmware",
   "zp1", "filter1", "offset1", "zp2", "filter2", "offset2",
   "zp3", "filter3", "offset3", "zp4", "filter4", "offset4",
   "to_mqtt", "dict", "json", "model_dump", "model_dump_json"]

/-- Python attribute lookup against a table of available attribute names. -/
def moduleGetattr (attrs : List String) (name : String) : Except PyError Unit :=
  if name ∈ attrs then .ok () else .error (.attributeError name)

/-- photometer.py register, lines 152-156, with the shared queue threaded as
state.  The statements are, in order: message = self.info.to_dict()
(an attribute lookup on PhotometerInfo), then two queue.put calls of
(MessagePriority.MQTT_REGISTER, message) separated by asyncio.sleep(5);
in each put the enum attribute is evaluated before the tuple is built.
Effects already performed on the queue survive a raised exception. -/
def photometerRegister (payload : String) (q : List (Nat × String)) :
    List (Nat × String) × Option PyError :=
  match moduleGetattr photometerInfoAttrs "to_dict" with
  | .error e => (q, some e)
  | .ok _ =>
    match messagePriorityAttr "MQTT_REGISTER" with
    | .error e => (q, some e)
    | .ok p1 =>
      let q1 := pqPut q (p1.val, payload)
      match messagePriorityAttr "MQTT_REGISTER" with
      | .error e => (q1, some e)
      | .ok p2 => (pqPut q1 (p2.val, payload), none)

/-- serial.py do_register, lines 27-30: two queue.put calls of
(MessagePriority.MQTT_REGISTER, phot.to_mqtt()) separated by a 5 second
sleep; in each call the enum attribute is evaluated first. -/
def serialDoRegister (payload : String) (q : List (Nat × String)) :
    List (Nat × String) × Option PyError :=
  match messagePriorityAttr "MQTT_REGISTER" with
  | .error e => (q, some e)
  | .ok p1 =>
    let q1 := pqPut q (p1.val, payload)
    match messagePriorityAttr "MQTT_REGISTER" with
    | .error e => (q1, some e)
    | .ok p2 => (pqPut q1 (p2.val, payload), none)

/-- The two outbound destinations of the publisher (mqtt.py 150, 153). -/
inductive PublishAction
  | toRegisterTopic (payload : String)
  | toReadingTopic (payload : String)
  deriving DecidableEq

/-- mqtt.py publisher, lines 148-153: after dequeuing (priority, item) the
branch tests priority == MessagePriority.MQTT_REGISTER, then publishes to
the fixed registration topic or to the per-device reading topic. -/
def publisherBranch (priority : Nat) (item : String) :
    Except PyError PublishAction :=
  match messagePriorityAttr "MQTT_REGISTER" with
  | .error e => .error e
  | .ok reg =>
    if priority = reg.val then .ok (.toRegisterTopic item)
    else .ok (.toReadingTopic item)

/-- The publisher loop body runs under except Exception (mqtt.py 157-159):
an exception is logged and the loop continues, the dequeued envelope is
dropped, so a step either publishes or silently consumes the envelope. -/
def publisherLoopStep (priority : Nat) (item : String) : Option PublishAction :=
  match publisherBranch priority item with
  | .ok a => some a
  | .error _ => none

/-- The state of the pending-line future of TCPProtocol.on_data_received
(transport.py 55, 75-79): absent before the first read call, pending
while a reader awaits it, done once set_result delivered a line,
cancelledW after Future.cancel. -/
inductive Waiter
  | absent
  | pending
  | done (line : List Char)
  | cancelledW
  deriving DecidableEq

/-- The fields of TCPProtocol that the line framer uses: the growable byte
buffer and the pending-line future (transport.py 55-59). -/
structure TCPState where
  buffer : List Char
  waiter : Waiter
  deriving DecidableEq

/-- Is the needle a prefix of the haystack. -/
def matchesHere : List Char → List Char → Bool
  | [], _ => true
  | _ :: _, [] => false
  | n :: ns, h :: hs => decide (n = h) && matchesHere ns hs

/-- bytearray.find: the lowest index where the needle occurs, if any. -/
def findSub (hay nl : List Char) : Option Nat :=
  match hay with
  | [] => if matchesHere nl [] then some 0 else none
  | c :: t =>
    if matchesHere nl (c :: t) then some 0
    else (findSub t nl).map (fun n => n + 1)

/-- The configured delimiter, newline = b"\r\n" (transport.py 46). -/
def newlineCRLF : List Char := [Char.ofNat 13, Char.ofNat 10]

/-- The while-True loop of TCPProtocol.data_received (transport.py 90-105):
scan the buffer for the delimiter; if absent, break; otherwise slice one
line through the delimiter, then execute line 96,
self._buffer = bytearray(), which empties the whole buffer; if a
pending waiter exists, fulfil it and break, else iterate again.  The
body always either breaks or empties the buffer, so the loop performs
at most two productive iterations; the fuel passed by dataReceived is
ample for that. -/
def deliverLoop (fuel : Nat) (st : TCPState) : TCPState :=
  match fuel with
  | 0 => st
  | fuel + 1 =>
    match findSub st.buffer newlineCRLF with
    | none => st
    | some idx =>
      let line := st.buffer.take (idx + newlineCRLF.length)
      let st2 : TCPState := { buffer := [], waiter := st.waiter }
      match st2.waiter with
      | .pending => { st2 with waiter := .done line }
      | _ => deliverLoop fuel st2

/-- TCPProtocol.data_received (transport.py 86-105): append the inbound
chunk to the buffer, then run the scan loop. -/
def data_received (st : TCPState) (data : List Char) : TCPState :=
  deliverLoop (st.buffer.length + data.length + 1)
    { st with buffer := st.buffer ++ data }

/-- TCPProtocol.__anext__ (transport.py 75-79): cancel a stale pending
future and install a fresh pending one, then await it. -/
def nextLineCall (st : TCPState) : TCPState :=
  { st with waiter := .pending }

/-- The terminal status of a task supervised by the asyncio.TaskGroup of
cli_main (client.py 170-183). -/
inductive TaskStatus
  | running
  | completedOk
  | raisedErr (e : PyError)
  | cancelled
  deriving DecidableEq

/-- The tasks created by cli_main (client.py 171-183) for a deployment with
two configured devices: the reload monitor, the HTTP admin surface, the
MQTT publisher, and one reader and one sampler per device. -/
def systemTasks : List String :=
  ["reload_monitor", "http_admin", "mqtt_publisher",
   "reader_stars1", "sampler_stars1", "reader_stars2", "sampler_stars2"]

/-- asyncio.TaskGroup semantics, as used by cli_main: when one child task
terminates with an exception, the group cancels every other child; the
group then re-raises the failure to the except-star clauses. -/
def superviseAfterFailure (tasks : List String) (failed : String)
    (e : PyError) : List (String × TaskStatus) :=
  tasks.map fun t =>
    (t, if t = failed then TaskStatus.raisedErr e else TaskStatus.cancelled)

/-- Module-level names defined by mqtt.py: imports aside, the module binds
Stats, State, log, proto_log, stats, state, on_server_stats,
on_server_reload and publisher.  There is no on_client_reload. -/
def mqttModuleAttrs : List String :=
  ["Stats", "State", "log", "proto_log", "stats", "state",
   "on_server_stats", "on_server_reload", "publisher"]

/-- Module-level names defined by http.py: State, state, log, app, the
route handlers and on_server_reload and admin.  There is no
on_client_reload. -/
def httpModuleAttrs : List String :=
  ["State", "state", "log", "app", "on_server_reload", "admin"]

/-- Lookup of a key in the freshly loaded configuration dictionary; a
missing key raises KeyError. -/
def dictGet (cfg : List (String × String)) (key : String) :
    Except PyError String :=
  match cfg.find? (fun p => p.1 = key) with
  | some p => .ok p.2
  | none => .error (.keyError key)

/-- One reload pass of reload_monitor (client.py 114-119) after the reload
flag was found set: options = await reload_file(state.config_path) is
given here as cfg; then mqtt.on_client_reload(options["mqtt"]) and
http.on_client_reload(options["http"]) are executed, each evaluating
the module attribute before the dictionary subscript.  No part of this
body is wrapped in an exception handler. -/
def reloadMonitorStep (cfg : List (String × String)) : Except PyError Unit := do
  let _ ← moduleGetattr mqttModuleAttrs "on_client_reload"
  let _ ← dictGet cfg "mqtt"
  let _ ← moduleGetattr httpModuleAttrs "on_client_reload"
  let _ ← dictGet cfg "http"
  .ok ()

/-- The reader task of the live Photometer class (photometer.py 178-185) as
a function of the outcomes of its two await points: await
self.register(), then async with self (whose __aenter__ performs await
self.transport.open()).  Neither statement is wrapped in an exception
handler, so a raised error escapes the task; if both succeed, the
async-for over PhotometerReadings stops immediately (its __anext__
raises StopAsyncIteration, photometer.py 124-131) and the task
completes. -/
def readerTaskOutcome (regRes : Except PyError Unit)
    (openRes : Except PyError Unit) : TaskStatus :=
  match regRes with
  | .error e => .raisedErr e
  | .ok _ =>
    match openRes with
    | .error e => .raisedErr e
    | .ok _ => .completedOk

/-- The registration outcome actually produced by the live code, as
established for claim C5: photometer.register raises AttributeError. -/
def registerOutcomeActual (payload : String) : Except PyError Unit :=
  match (photometerRegister payload []).2 with
  | some e => .error e
  | none => .ok ()

/-- Operations on the physical transport resource. -/
inductive TransportOp
  | openT
  | closeT
  deriving DecidableEq

/-- The ways the body of the async-with block in the reader can exit. -/
inductive ExitPath
  | normalExit
  | errorExit
  | cancelExit
  deriving DecidableEq

/-- Photometer.__aenter__ (photometer.py 158-165): performs await
self.transport.open(). -/
def aenterOps : List TransportOp := [.openT]

/-- Photometer.__aexit__ (photometer.py 167-176): its body is only
return None; it performs no transport operation on any exit path,
in particular it never calls self.transport.close(). -/
def aexitOps (_p : ExitPath) : List TransportOp := []

/-- The async-for body of the reader (photometer.py 182-185) only logs and
appends to the ring slot: no transport operation. -/
def readerBodyOps : List TransportOp := []

/-- The transport operations performed by one run of the reader that enters
the async-with block: __aenter__, then the body, then __aexit__, which
the async-with statement invokes on every exit path (normal completion,
raised error, or cancellation). -/
def readerTransportOps (p : ExitPath) : List TransportOp :=
  aenterOps ++ readerBodyOps ++ aexitOps p

/-- Python runtime values, as far as is_zero_point distinguishes them.  A
Python bool is an instance of int (with value 0 or 1), so it takes the
int branch; excV represents an exception object held as an ordinary
value. -/
inductive PyVal
  | intV (n : Int)
  | boolV (b : Bool)
  | floatV (q : Rat)
  | strV (s : String)
  | noneV
  | excV (msg : String)
  deriving DecidableEq

/-- isinstance(value, (int, float, str)), with bool counting as int. -/
def isIntFloatStr : PyVal → Bool
  | .intV _ => true
  | .boolV _ => true
  | .floatV _ => true
  | .strV _ => true
  | _ => false

/-- The whitespace characters Python strips around numeric literals. -/
def isPySpace (c : Char) : Bool :=
  c == ' ' || c == Char.ofNat 9 || c == Char.ofNat 10 || c == Char.ofNat 13
    || c == Char.ofNat 11 || c == Char.ofNat 12

/-- Strip surrounding whitespace, as int() and float() do. -/
def pyTrim (cs : List Char) : List Char :=
  ((cs.dropWhile isPySpace).reverse.dropWhile isPySpace).reverse

/-- An optional single leading sign. -/
def pySign (cs : List Char) : Int × List Char :=
  match cs with
  | [] => (1, [])
  | c :: r =>
    if c = '+' then (1, r)
    else if c = '-' then (-1, r)
    else (1, c :: r)

/-- The value of a decimal digit character. -/
def digitVal10 (c : Char) : Option Nat :=
  if 48 ≤ c.toNat ∧ c.toNat ≤ 57 then some (c.toNat - 48) else none

/-- A run of decimal digits accumulated onto acc; the empty run yields acc. -/
def decDigitsAcc : List Char → Nat → Option Nat
  | [], acc => some acc
  | c :: r, acc =>
    match digitVal10 c with
    | some d => decDigitsAcc r (10 * acc + d)
    | none => none

/-- The mantissa of a Python float literal: digits, optionally with one
decimal point, at least one digit in total. -/
def parseMantissa (cs : List Char) : Option Rat :=
  match cs.findIdx? (fun c => c == '.') with
  | none =>
    if cs.isEmpty then none
    else (decDigitsAcc cs 0).map (fun n => (n : Rat))
  | some i =>
    let ip := cs.take i
    let fp := cs.drop (i + 1)
    if fp.any (fun c => c == '.') then none
    else if ip.isEmpty && fp.isEmpty then none
    else
      match decDigitsAcc ip 0, decDigitsAcc fp 0 with
      | some iv, some fv =>
        some ((iv : Rat) + (fv : Rat) / ((10 : Rat) ^ fp.length))
      | _, _ => none

/-- Apply the parsed sign, which pySign returns as 1 or -1. -/
def applySign (sgn : Int) (m : Rat) : Rat :=
  if sgn < 0 then -m else m

/-- Python float(str) on finite decimal literals, with exact rational
values.  Digit-group underscores, inf and nan are not modelled, and the
IEEE rounding of the decimal value is not modelled either; neither
matters for the branch structure of is_zero_point under test. -/
def pyFloatParse (s : String) : Option Rat :=
  let t := pyTrim s.toList
  let p := pySign t
  match p.2.findIdx? (fun c => c == 'e' || c == 'E') with
  | none => (parseMantissa p.2).map (fun m => applySign p.1 m)
  | some i =>
    let mant := p.2.take i
    let ex := p.2.drop (i + 1)
    let pe := pySign ex
    if ex.isEmpty || pe.2.isEmpty then none
    else
      match parseMantissa mant, decDigitsAcc pe.2 0 with
      | some m, some e =>
        some (applySign p.1 (m * (10 : Rat) ^ (pe.1 * (e : Int))))
      | _, _ => none

/-- model.py is_zero_point (lines 81-95): an isinstance chain over int,
float and str; the int and float branches bounds-check the value
against ZP_LOW = 10 and ZP_HIGH = 30 and raise ValueError on violation;
the str branch first converts with float(value) (which may itself raise
ValueError) and then bounds-checks; any other type falls through to
line 95, which RETURNS a ValueError object instead of raising it. -/
def is_zero_point (v : PyVal) : Except PyError PyVal :=
  match v with
  | .intV n =>
    if 10 ≤ n ∧ n ≤ 30 then .ok (.intV n)
    else .error (.valueError "Zero Point out of bounds")
  | .boolV b =>
    let n : Int := if b then 1 else 0
    if 10 ≤ n ∧ n ≤ 30 then .ok (.boolV b)
    else .error (.valueError "Zero Point out of bounds")
  | .floatV q =>
    if 10 ≤ q ∧ q ≤ 30 then .ok (.floatV q)
    else .error (.valueError "Zero Point out of bounds")
  | .strV s =>
    match pyFloatParse s with
    | none => .error (.valueError "could not convert string to float")
    | some q =>
      if 10 ≤ q ∧ q ≤ 30 then .ok (.floatV q)
      else .error (.valueError "Zero Point out of bounds")
  | .noneV => .ok (.excV "unsupported type")
  | .excV _ => .ok (.excV "unsupported type")

/-- Decidable equality for Except results, so that concrete runs of the
embedded validators can be checked by evaluation. -/
instance instDecEqExcept {α β : Type} [DecidableEq α] [DecidableEq β] :
    DecidableEq (Except α β) :=
  fun a b =>
    match a, b with
    | .ok x, .ok y =>
      if h : x = y then .isTrue (congrArg Except.ok h)
      else .isFalse (fun hc => h (Except.ok.inj hc))
    | .error x, .error y =>
      if h : x = y then .isTrue (congrArg Except.error h)
      else .isFalse (fun hc => h (Except.error.inj hc))
    | .ok _, .error _ => .isFalse (fun hc => Except.noConfusion hc)
    | .error _, .ok _ => .isFalse (fun hc => Except.noConfusion hc)

/-- The hexadecimal digit characters and their values. -/
def hexTable : List (Char × Nat) :=
  [('0', 0), ('1', 1), ('2', 2), ('3', 3), ('4', 4),
   ('5', 5), ('6', 6), ('7', 7), ('8', 8), ('9', 9),
   ('a', 10), ('b', 11), ('c', 12), ('d', 13), ('e', 14), ('f', 15),
   ('A', 10), ('B', 11), ('C', 12), ('D', 13), ('E', 14), ('F', 15)]

/-- The value of one hexadecimal digit character, if it is one. -/
def hexVal (c : Char) : Option Nat :=
  (hexTable.find? (fun p => p.1 == c)).map Prod.snd

/-- Strip the 0x or 0X base marker accepted by int(x, 16), together with
the single underscore Python allows directly after it. -/
def stripHexMarker (cs : List Char) : List Char :=
  match cs with
  | c0 :: c1 :: rest =>
    if c0 = '0' ∧ (c1 = 'x' ∨ c1 = 'X') then
      match rest with
      | u :: r2 => if u = '_' then r2 else rest
      | [] => []
    else c0 :: c1 :: rest
  | other => other

/-- A run of hexadecimal digits in which each underscore must sit between
two digits, accumulated onto an initial digit value. -/
def hexDigitsAcc : List Char → Nat → Option Nat
  | [], acc => some acc
  | c :: rest, acc =>
    if c = '_' then
      match rest with
      | c2 :: r2 =>
        match hexVal c2 with
        | some d => hexDigitsAcc r2 (16 * acc + d)
        | none => none
      | [] => none
    else
      match hexVal c with
      | some d => hexDigitsAcc rest (16 * acc + d)
      | none => none

/-- The digit part of a base-16 int literal: at least one digit, leading
underscore not allowed. -/
def parseHexBody (cs : List Char) : Option Nat :=
  match cs with
  | [] => none
  | c :: rest =>
    match hexVal c with
    | some d => hexDigitsAcc rest d
    | none => none

/-- Python int(x, 16) on a character list: surrounding whitespace, an
optional sign, an optional 0x or 0X marker, then hex digits possibly
separated by single underscores.  (Non-ASCII Unicode digits, which
Python also accepts, are not modelled.) -/
def pyIntHexList (cs : List Char) : Option Int :=
  match parseHexBody (stripHexMarker (pySign (pyTrim cs)).2) with
  | some n => some ((pySign (pyTrim cs)).1 * (n : Int))
  | none => none

/-- Split on the colon character, keeping empty fields, exactly as
Python str.split(":") does. -/
def splitColon : List Char → List (List Char)
  | [] => [[]]
  | c :: rest =>
    if c = ':' then [] :: splitColon rest
    else
      match splitColon rest with
      | g :: gs => (c :: g) :: gs
      | [] => [[c]]

/-- Join fields with colons, as ":".join does. -/
def joinColon : List (List Char) → List Char
  | [] => []
  | [g] => g
  | g :: gs => g ++ ':' :: joinColon gs

/-- One uppercase hexadecimal digit character. -/
def hexDigitUpper (n : Nat) : Char :=
  if n < 10 then Char.ofNat (48 + n) else Char.ofNat (55 + n)

/-- Uppercase hexadecimal digits of n, most significant first; the fuel is
an upper bound on the number of digits, made ample by the caller. -/
def toHexUpperFuel : Nat → Nat → List Char
  | 0, _ => []
  | fuel + 1, n =>
    if n < 16 then [hexDigitUpper n]
    else toHexUpperFuel fuel (n / 16) ++ [hexDigitUpper (n % 16)]

/-- Uppercase hexadecimal rendering of a natural number. -/
def toHexUpper (n : Nat) : List Char :=
  toHexUpperFuel (n + 1) n

/-- The Python format spec 02X: uppercase hex, zero padded to a total
width of two, the sign of a negative value placed before the padding. -/
def format02X (v : Int) : List Char :=
  if v < 0 then
    '-' :: (List.replicate (2 - (1 + (toHexUpper v.natAbs).length)) '0'
      ++ toHexUpper v.natAbs)
  else
    List.replicate (2 - (toHexUpper v.toNat).length) '0' ++ toHexUpper v.toNat

/-- Parse every field in order, failing as soon as one field fails, the
way the generator inside the join call does. -/
def parseFields (f : α → Option β) : List α → Option (List β)
  | [] => some []
  | a :: rest =>
    Option.bind (f a) fun b =>
      Option.map (fun bs => b :: bs) (parseFields f rest)

/-- model.py is_mac_address (lines 51-64) after value.split(":"): exactly
six fields are required, each field is parsed with int(x, 16) and
rendered back with the 02X format, joined with colons; any failure
raises ValueError with the Invalid MAC message. -/
def macFromParts (parts : List (List Char)) (orig : String) :
    Except String String :=
  if parts.length = 6 then
    match parseFields pyIntHexList parts with
    | some vals => .ok (String.mk (joinColon (vals.map format02X)))
    | none => .error ("Invalid MAC: " ++ orig)
  else .error ("Invalid MAC: " ++ orig)

/-- model.py is_mac_address (lines 51-64) on a string input. -/
def is_mac_address (s : String) : Except String String :=
  macFromParts (splitColon s.toList) s

/-- Modelled from the spec words, for comparison with is_mac_address: a
hexadecimal octet is one or two hex digit characters, with the value
they denote. -/
def specOctetVal (p : List Char) : Option Nat :=
  match p with
  | [c] => hexVal c
  | [c1, c2] =>
    match hexVal c1, hexVal c2 with
    | some d1, some d2 => some (16 * d1 + d2)
    | _, _ => none
  | _ => none

/-- Modelled from the spec words: the uppercase two-digit form of an
octet value. -/
def specTwoDigit (v : Nat) : List Char :=
  [hexDigitUpper (v / 16), hexDigitUpper (v % 16)]

/-- Modelled from the spec words: accept exactly the strings of six
colon-separated hexadecimal octets, normalized to uppercase two-digit
colon-separated form. -/
def macSpecNormalize (s : String) : Option String :=
  if (splitColon s.toList).length = 6 then
    (parseFields specOctetVal (splitColon s.toList)).map
      (fun vs => String.mk (joinColon (vs.map specTwoDigit)))
  else none

-- ===================================================================
-- Theorems
-- ===================================================================

/-- Claim C6: the per-device RingSlot (deque of maxlen 1) has
latest-value-wins semantics: pushing v1 then v2 with no intervening pop
leaves only v2 in the slot, the following pop yields v2 with the slot
emptied so v1 is unrecoverable, a push onto an occupied slot always
overwrites the unconsumed value, and a pop on an empty slot reports
empty instead of returning a value. -/
theorem ringslot_latest_value_wins (v1 v2 w : String) :
    ringPush (ringPush [] v1) v2 = [v2] ∧
    ringPop (ringPush (ringPush [] v1) v2) = some (v2, []) ∧
    ringPush [w] v2 = [v2] ∧
    ringPop ([] : List String) = none := by
  refine ⟨?_, ?_, ?_, rfl⟩ <;> simp [ringPush, dequeAppend, ringPop]

/-- Claim C1, evaluation at the failing input: the queue entries are bare
(priority, payload) pairs with no sequence token, so equal-priority
envelopes drain in payload order, not enqueue order.  Enqueueing the
Reading payloads B then A dequeues A first, violating
FIFO-within-priority-class. -/
theorem priority_queue_not_fifo_within_class :
    pqGet (samplerEnqueue (samplerEnqueue [] "B") "A") =
      some ((MessagePriority.MQTT_READINGS.val, "A"),
            [(MessagePriority.MQTT_READINGS.val, "B")]) := by
  decide

/-- Claim C5: the enum defines only REGISTER and MQTT_READINGS, while
photometer.register, serial.do_register and the register branch of the
mqtt publisher all need MessagePriority.MQTT_REGISTER; every execution
reaching a registration enqueue raises AttributeError before any put
(in photometer.register already at the earlier self.info.to_dict()
lookup), and the publisher branch raises AttributeError for every
dequeued envelope, which the surrounding except Exception turns into a
dropped envelope, so no Register envelope is ever enqueued or matched. -/
theorem mqtt_register_attribute_error :
    messagePriorityAttr "REGISTER" = .ok .REGISTER ∧
    messagePriorityAttr "MQTT_READINGS" = .ok .MQTT_READINGS ∧
    messagePriorityAttr "MQTT_REGISTER" =
      .error (.attributeError "MQTT_REGISTER") ∧
    (∀ payload q, serialDoRegister payload q =
      (q, some (.attributeError "MQTT_REGISTER"))) ∧
    (∀ payload q, photometerRegister payload q =
      (q, some (.attributeError "to_dict"))) ∧
    (∀ p item, publisherBranch p item =
      .error (.attributeError "MQTT_REGISTER")) ∧
    (∀ p item, publisherLoopStep p item = none) :=
  ⟨rfl, rfl, rfl, fun _ _ => rfl, fun _ _ => rfl,
   fun _ _ => rfl, fun _ _ => rfl⟩

/-- Claim C7, evaluation at the failing input: a device startup performs the
registration call, but both registration variants raise AttributeError
before the first put, so the shared queue is left unchanged: zero
Register envelopes are produced instead of the required two. -/
theorem register_produces_no_envelopes (payload : String)
    (q : List (Nat × String)) :
    (serialDoRegister payload q).1 = q ∧
    (serialDoRegister payload q).2.isSome = true ∧
    (photometerRegister payload q).1 = q ∧
    (photometerRegister payload q).2.isSome = true :=
  ⟨rfl, rfl, rfl, rfl⟩

/-- Claim C2, evaluation at the failing input: with a reader awaiting a
line, feeding the chunk AB then the chunk CD-CRLF-EF does deliver
exactly the one completed line ABCD-CRLF, but line 96 of transport.py
replaces the buffer by a fresh empty bytearray, so the bytes EF that
followed the delimiter are discarded instead of remaining buffered for
the next call. -/
theorem tcp_framer_discards_chunk_remainder :
    data_received { buffer := [], waiter := .pending } ("AB".toList) =
      { buffer := "AB".toList, waiter := .pending } ∧
    data_received { buffer := "AB".toList, waiter := .pending }
        ("CD\r\nEF".toList) =
      { buffer := [], waiter := .done ("ABCD\r\n".toList) } ∧
    ({ buffer := [], waiter := .done ("ABCD\r\n".toList)} : TCPState).buffer
      ≠ "EF".toList := by
  refine ⟨?_, ?_, ?_⟩ <;> decide

/-- Claim C3, evaluation at the failing input: a reload pass is not guarded
by any handler; it fails for every configuration (the mqtt module has
no attribute on_client_reload, and a configuration missing the mqtt key
would raise KeyError just after), the exception escapes the
reload-monitor task, and the TaskGroup of cli_main then cancels the
publisher and every device pipeline instead of leaving them running. -/
theorem reload_error_tears_down_task_group :
    (∀ cfg, reloadMonitorStep cfg =
      .error (.attributeError "on_client_reload")) ∧
    reloadMonitorStep [("http", "section")] =
      .error (.attributeError "on_client_reload") ∧
    (superviseAfterFailure systemTasks "reload_monitor"
        (.attributeError "on_client_reload")).lookup "mqtt_publisher" =
      some .cancelled ∧
    (superviseAfterFailure systemTasks "reload_monitor"
        (.attributeError "on_client_reload")).lookup "reader_stars1" =
      some .cancelled := by
  refine ⟨fun cfg => rfl, rfl, ?_, ?_⟩ <;> decide

/-- Claim C4, evaluation at the failing input: the live reader task has no
exception handling, so a transport-open failure (or, earlier still, the
AttributeError raised by register) escapes the task; the TaskGroup of
cli_main then cancels the publisher and the tasks of every other
device, rather than ending only the failing reader. -/
theorem device_failure_cancels_sibling_tasks :
    (∀ e, readerTaskOutcome (.ok ()) (.error e) = .raisedErr e) ∧
    (∀ payload, registerOutcomeActual payload =
      .error (.attributeError "to_dict")) ∧
    (∀ payload openRes,
      readerTaskOutcome (registerOutcomeActual payload) openRes =
        .raisedErr (.attributeError "to_dict")) ∧
    (superviseAfterFailure systemTasks "reader_stars1"
        (.serialException "could not open port")).lookup "mqtt_publisher" =
      some .cancelled ∧
    (superviseAfterFailure systemTasks "reader_stars1"
        (.serialException "could not open port")).lookup "reader_stars2" =
      some .cancelled := by
  refine ⟨fun e => rfl, fun payload => rfl, fun payload openRes => rfl, ?_, ?_⟩
    <;> decide

/-- Claim C8, evaluation at the failing input: a reader run that opens the
transport performs the open from __aenter__, but __aexit__ is a body of
return None, so on every exit path of the task (normal completion,
error, cancellation) no close operation is ever performed and the
physical resource leaks. -/
theorem transport_open_never_closed (p : ExitPath) :
    TransportOp.openT ∈ readerTransportOps p ∧
    TransportOp.closeT ∉ readerTransportOps p := by
  cases p <;> exact ⟨by decide, by decide⟩

/-- Claim C10: for every value that is neither an int (bools included), a
float nor a str, is_zero_point returns a ValueError object as the
validated value instead of raising; the int and float branches raise
ValueError exactly outside the closed interval from 10 to 30 and return
the value inside it; a str whose float conversion yields a value
outside the interval also raises. -/
theorem zero_point_returns_exception_object :
    (∀ v, isIntFloatStr v = false →
      is_zero_point v = .ok (.excV "unsupported type")) ∧
    (∀ n : Int, ¬(10 ≤ n ∧ n ≤ 30) →
      is_zero_point (.intV n) = .error (.valueError "Zero Point out of bounds")) ∧
    (∀ n : Int, (10 ≤ n ∧ n ≤ 30) →
      is_zero_point (.intV n) = .ok (.intV n)) ∧
    (∀ q : Rat, ¬(10 ≤ q ∧ q ≤ 30) →
      is_zero_point (.floatV q) = .error (.valueError "Zero Point out of bounds")) ∧
    (∀ q : Rat, (10 ≤ q ∧ q ≤ 30) →
      is_zero_point (.floatV q) = .ok (.floatV q)) ∧
    (∀ s rq, pyFloatParse s = some rq → ¬(10 ≤ rq ∧ rq ≤ 30) →
      is_zero_point (.strV s) = .error (.valueError "Zero Point out of bounds")) := by
  refine ⟨?_, ?_, ?_, ?_, ?_, ?_⟩
  · intro v h
    cases v <;> simp_all [isIntFloatStr, is_zero_point]
  · intro n h
    simp [is_zero_point, h]
  · intro n h
    simp [is_zero_point, h]
  · intro q h
    simp [is_zero_point, h]
  · intro q h
    simp [is_zero_point, h]
  · intro s rq hp h
    simp [is_zero_point, hp, h]

/-- Witness for claim C10 at concrete inputs: None yields a returned
ValueError object, the int 35 raises, the int 20 passes, and the string
35 raises through the float branch. -/
theorem zero_point_witness :
    is_zero_point .noneV = .ok (.excV "unsupported type") ∧
    is_zero_point (.intV 35) = .error (.valueError "Zero Point out of bounds") ∧
    is_zero_point (.intV 20) = .ok (.intV 20) ∧
    is_zero_point (.strV "35") = .error (.valueError "Zero Point out of bounds") :=
  ⟨zero_point_returns_exception_object.1 .noneV rfl,
   zero_point_returns_exception_object.2.1 35 (by decide),
   zero_point_returns_exception_object.2.2.1 20 (by decide),
   zero_point_returns_exception_object.2.2.2.2.2 "35" 35 (by decide) (by decide)⟩

theorem hexVal_pair_mem (c : Char) (d : Nat) (h : hexVal c = some d) :
    (c, d) ∈ hexTable := by
  unfold hexVal at h
  cases hfind : hexTable.find? (fun p => p.1 == c) with
  | none => rw [hfind] at h; simp at h
  | some pr =>
    rw [hfind] at h
    have hp : pr.1 = c := by
      have h1 := List.find?_some hfind
      simpa using h1
    have h2 : pr.2 = d := by simpa using h
    have hm := List.mem_of_find?_eq_some hfind
    have hpr : pr = (c, d) := by
      cases pr
      simp_all
    rwa [hpr] at hm

theorem hexTable_facts : ∀ p ∈ hexTable,
    p.2 < 16 ∧ isPySpace p.1 = false ∧ p.1 ≠ '+' ∧ p.1 ≠ '-' ∧
    p.1 ≠ '_' ∧ p.1 ≠ 'x' ∧ p.1 ≠ 'X' := by
  decide

theorem hexVal_char_facts (c : Char) (d : Nat) (h : hexVal c = some d) :
    d < 16 ∧ isPySpace c = false ∧ c ≠ '+' ∧ c ≠ '-' ∧
    c ≠ '_' ∧ c ≠ 'x' ∧ c ≠ 'X' := by
  have hm := hexVal_pair_mem c d h
  simpa using hexTable_facts (c, d) hm

theorem pyIntHexList_single (c : Char) (d : Nat) (h : hexVal c = some d) :
    pyIntHexList [c] = some (d : Int) := by
  obtain ⟨hd, hsp, hplus, hminus, hund, hx, hX⟩ := hexVal_char_facts c d h
  have ht : pyTrim [c] = [c] := by
    simp [pyTrim, List.dropWhile_cons, hsp]
  have hs : pySign [c] = (1, [c]) := by
    simp [pySign, hplus, hminus]
  simp [pyIntHexList, ht, hs, stripHexMarker, parseHexBody, h, hexDigitsAcc]

theorem pyIntHexList_pair (c1 c2 : Char) (d1 d2 : Nat)
    (h1 : hexVal c1 = some d1) (h2 : hexVal c2 = some d2) :
    pyIntHexList [c1, c2] = some ((16 * d1 + d2 : Nat) : Int) := by
  obtain ⟨hd1, hsp1, hplus1, hminus1, hund1, hx1, hX1⟩ := hexVal_char_facts c1 d1 h1
  obtain ⟨hd2, hsp2, hplus2, hminus2, hund2, hx2, hX2⟩ := hexVal_char_facts c2 d2 h2
  have ht : pyTrim [c1, c2] = [c1, c2] := by
    simp [pyTrim, List.dropWhile_cons, hsp1, hsp2]
  have hs : pySign [c1, c2] = (1, [c1, c2]) := by
    simp [pySign, hplus1, hminus1]
  have hm : stripHexMarker [c1, c2] = [c1, c2] := by
    simp [stripHexMarker, hx2, hX2]
  simp [pyIntHexList, ht, hs, hm, parseHexBody, h1, hexDigitsAcc, hund2, h2]

theorem specOctet_code (p : List Char) (v : Nat) (h : specOctetVal p = some v) :
    pyIntHexList p = some (v : Int) ∧ v < 256 := by
  rcases p with _ | ⟨c1, _ | ⟨c2, _ | ⟨c3, rest⟩⟩⟩
  · simp [specOctetVal] at h
  · simp only [specOctetVal] at h
    have hf := hexVal_char_facts c1 v h
    exact ⟨pyIntHexList_single c1 v h, by omega⟩
  · simp only [specOctetVal] at h
    cases hh1 : hexVal c1 with
    | none => rw [hh1] at h; simp at h
    | some d1 =>
      cases hh2 : hexVal c2 with
      | none => rw [hh1, hh2] at h; simp at h
      | some d2 =>
        rw [hh1, hh2] at h
        simp at h
        have hf1 := hexVal_char_facts c1 d1 hh1
        have hf2 := hexVal_char_facts c2 d2 hh2
        constructor
        · rw [← h]
          exact pyIntHexList_pair c1 c2 d1 d2 hh1 hh2
        · have hb1 := hf1.1
          have hb2 := hf2.1
          omega
  · simp [specOctetVal] at h

theorem toHexUpperFuel_small (fuel n : Nat) (h : n < 16) (hf : 1 ≤ fuel) :
    toHexUpperFuel fuel n = [hexDigitUpper n] := by
  cases fuel with
  | zero => omega
  | succ f => simp [toHexUpperFuel, h]

theorem format02X_octet (v : Nat) (hv : v < 256) :
    format02X (v : Int) = specTwoDigit v := by
  have hneg : ¬((v : Int) < 0) := by omega
  have htn : ((v : Int)).toNat = v := by omega
  simp only [format02X, if_neg hneg, htn]
  by_cases h16 : v < 16
  · have hone : toHexUpper v = [hexDigitUpper v] := by
      simp [toHexUpper, toHexUpperFuel, h16]
    rw [hone]
    have hz : hexDigitUpper 0 = '0' := by decide
    simp [specTwoDigit, Nat.div_eq_of_lt h16, Nat.mod_eq_of_lt h16, hz,
      List.replicate]
  · have h1 : v / 16 < 16 := by omega
    have htwo : toHexUpper v = [hexDigitUpper (v / 16), hexDigitUpper (v % 16)] := by
      rw [toHexUpper]
      simp only [toHexUpperFuel, if_neg h16]
      rw [toHexUpperFuel_small v (v / 16) h1 (by omega)]
      simp
    rw [htwo]
    simp [specTwoDigit]

theorem parseFields_specOctet_code (parts : List (List Char)) (vs : List Nat)
    (h : parseFields specOctetVal parts = some vs) :
    parseFields pyIntHexList parts = some (vs.map Int.ofNat) ∧
    ∀ v ∈ vs, v < 256 := by
  induction parts generalizing vs with
  | nil =>
    simp [parseFields] at h
    subst h
    simp [parseFields]
  | cons p ps ih =>
    rw [parseFields] at h
    cases hp : specOctetVal p with
    | none => rw [hp] at h; simp at h
    | some v =>
      rw [hp] at h
      cases hps : parseFields specOctetVal ps with
      | none => rw [hps] at h; simp at h
      | some tl =>
        rw [hps] at h
        simp at h
        obtain ⟨hc, hb⟩ := ih tl hps
        obtain ⟨hcode, hv⟩ := specOctet_code p v hp
        rw [parseFields, hcode, hc]
        subst h
        refine ⟨by simp, ?_⟩
        intro x hx
        rcases List.mem_cons.mp hx with hx1 | hx2
        · omega
        · exact hb x hx2

/-- Claim C9 counterexample: the validator does not accept only six-octet
strings; the field FFF (three hex digits, value 4095) is accepted by
int(x, 16) and rendered back as FFF, so the whole string is accepted
and returned unchanged even though it is not six hexadecimal octets. -/
theorem mac_validator_accepts_non_octet :
    is_mac_address "FFF:00:00:00:00:00" = .ok "FFF:00:00:00:00:00" ∧
    macSpecNormalize "FFF:00:00:00:00:00" = none := by
  constructor <;> decide

/-- Claim C9 amended: every string of six colon-separated hexadecimal
octets is accepted and normalized to its uppercase two-digit form, but
the validator also accepts further strings, namely any whose six
colon-separated fields parse under int(x, 16); strings without six such
fields are rejected. -/
theorem mac_spec_octets_accepted (s t : String)
    (h : macSpecNormalize s = some t) :
    is_mac_address s = .ok t := by
  by_cases hlen : (splitColon s.toList).length = 6
  · simp only [macSpecNormalize, if_pos hlen] at h
    cases hm : parseFields specOctetVal (splitColon s.toList) with
    | none => rw [hm] at h; simp at h
    | some vs =>
      rw [hm] at h
      simp at h
      obtain ⟨hcode, hb⟩ := parseFields_specOctet_code _ vs hm
      unfold is_mac_address macFromParts
      rw [if_pos hlen, hcode]
      show Except.ok (String.mk (joinColon
        ((vs.map Int.ofNat).map format02X))) = Except.ok t
      rw [List.map_map]
      have heq : vs.map (format02X ∘ Int.ofNat) = vs.map specTwoDigit :=
        List.map_congr_left (fun v hv => format02X_octet v (hb v hv))
      rw [heq, h]
  · simp only [macSpecNormalize, if_neg hlen] at h
    simp at h

/-- Witness for claim C9 at the concrete input from the spec: the mixed
case six-octet MAC normalizes to uppercase two-digit form. -/
theorem mac_spec_octets_accepted_witness :
    is_mac_address "0a:1B:2c:3D:4e:5F" = .ok "0A:1B:2C:3D:4E:5F" :=
  mac_spec_octets_accepted "0a:1B:2c:3D:4e:5F" "0A:1B:2C:3D:4E:5F" (by decide)

end TessPublisher
